import Mathlib

/-!
Verification of `src/evals/runledger/agent/agent.py`: a minimal scripted
agent speaking a line-delimited JSON protocol on stdin/stdout.

The embedding models:
  * JSON values (`Json`) and a parser `jsonParse` modelling Python's
    `json.loads` (a parse failure models `json.JSONDecodeError`);
  * Python's `str.strip` as `pyStrip`;
  * `dict.get` as `pyGet`, which raises `AttributeError` (modelled as
    `PyErr.attrError`) when the receiver is not a dict;
  * the dispatch body of the `for` loop (lines 13-19 of agent.py) as `step`;
  * the whole `main` loop as `runLoop`, mapping the list of input lines to
    the list of JSON payloads written to stdout plus an `Outcome` saying
    how the run ended (input exhausted, `break` after the final output, or
    an uncaught exception).
-/

namespace RunLedger

/-- JSON values as produced by `json.loads`.  A numeric literal is kept as
its raw token (no claim inspects numeric values).  Objects are ordered
key/value lists, as Python dicts preserve insertion order; the parser
updates in place on a duplicate key, as `json.loads` does. -/
inductive Json where
  | null : Json
  | bool (b : Bool) : Json
  | num (raw : String) : Json
  | str (s : String) : Json
  | arr (elems : List Json) : Json
  | obj (fields : List (String × Json)) : Json

/-- Whitespace characters stripped by Python's `str.strip()`: the code
points for which `str.isspace()` holds — ASCII whitespace, the separator
controls 28-31, NEL (133), NBSP (160), and the Unicode space separators
and line/paragraph separators. -/
def pyIsSpace (c : Char) : Bool :=
  let n := c.toNat
  (9 ≤ n && n ≤ 13) || (28 ≤ n && n ≤ 32) || n = 133 || n = 160 ||
    n = 5760 || (8192 ≤ n && n ≤ 8202) || n = 8232 || n = 8233 ||
    n = 8239 || n = 8287 || n = 12288

/-- Python's `str.strip()`: drop leading and trailing whitespace. -/
def pyStrip (s : String) : String :=
  String.mk (((s.data.dropWhile pyIsSpace).reverse.dropWhile pyIsSpace).reverse)

/-- JSON inter-token whitespace (RFC 8259: space, tab, LF, CR). -/
def jsonWs (c : Char) : Bool :=
  c = ' ' || c = '\t' || c = '\n' || c = '\r'

def skipWs (cs : List Char) : List Char := cs.dropWhile jsonWs

def isDigitCh (c : Char) : Bool := '0' ≤ c && c ≤ '9'

def hexVal (c : Char) : Option Nat :=
  let n := c.toNat
  if 48 ≤ n && n ≤ 57 then some (n - 48)
  else if 97 ≤ n && n ≤ 102 then some (n - 87)
  else if 65 ≤ n && n ≤ 70 then some (n - 55)
  else none

/-- Body of a JSON string literal, after the opening quote: returns the
decoded string and the input after the closing quote.  `acc` holds the
decoded characters in reverse.  Unescaped control characters are rejected,
as Python's strict decoder rejects them. -/
def parseStrBody (cs : List Char) (acc : List Char) : Option (String × List Char) :=
  match cs with
  | [] => none
  | '"' :: rest => some (String.mk acc.reverse, rest)
  | '\\' :: rest =>
    match rest with
    | '"' :: rs => parseStrBody rs ('"' :: acc)
    | '\\' :: rs => parseStrBody rs ('\\' :: acc)
    | '/' :: rs => parseStrBody rs ('/' :: acc)
    | 'b' :: rs => parseStrBody rs (Char.ofNat 8 :: acc)
    | 'f' :: rs => parseStrBody rs (Char.ofNat 12 :: acc)
    | 'n' :: rs => parseStrBody rs ('\n' :: acc)
    | 'r' :: rs => parseStrBody rs ('\r' :: acc)
    | 't' :: rs => parseStrBody rs ('\t' :: acc)
    | 'u' :: h1 :: h2 :: h3 :: h4 :: rs =>
      match hexVal h1, hexVal h2, hexVal h3, hexVal h4 with
      | some a, some b, some c, some d =>
        parseStrBody rs (Char.ofNat (((a * 16 + b) * 16 + c) * 16 + d) :: acc)
      | _, _, _, _ => none
    | _ => none
  | c :: rest => if c.toNat < 32 then none else parseStrBody rest (c :: acc)
termination_by structural cs

/-- The digits 1-9 (first digit of a nonzero JSON integer part). -/
def isDigit19 (c : Char) : Bool := '1' ≤ c && c ≤ '9'

/-- Optional fraction and exponent after the integer part of a JSON number. -/
def parseNumTail (intPart : List Char) (cs : List Char) : Option (String × List Char) :=
  let (fracPart, cs2) :=
    match cs with
    | '.' :: r =>
      let ds := r.takeWhile isDigitCh
      if ds = [] then (none, cs) else (some ('.' :: ds), r.dropWhile isDigitCh)
    | _ => ((none : Option (List Char)), cs)
  match fracPart, cs2 with
  | none, '.' :: _ => none
  | frac, _ =>
    let fracCs := frac.getD []
    match cs2 with
    | c :: r =>
      if c = 'e' || c = 'E' then
        let (signCs, r1) :=
          match r with
          | s :: r' => if s = '+' || s = '-' then ([s], r') else (([] : List Char), r)
          | [] => (([] : List Char), r)
        let ds := r1.takeWhile isDigitCh
        if ds = [] then none
        else some (String.mk (intPart ++ fracCs ++ c :: signCs ++ ds), r1.dropWhile isDigitCh)
      else some (String.mk (intPart ++ fracCs), cs2)
    | [] => some (String.mk (intPart ++ fracCs), cs2)

/-- A JSON numeric literal (RFC 8259 grammar): returns the raw token and the
rest of the input.  The token is kept verbatim; no claim inspects numeric
values. -/
def parseNum (cs : List Char) : Option (String × List Char) :=
  let (sign, cs1) :=
    match cs with
    | '-' :: r => (['-'], r)
    | _ => (([] : List Char), cs)
  match cs1 with
  | '0' :: r => parseNumTail (sign ++ ['0']) r
  | c :: r =>
    if isDigit19 c then
      let ds := r.takeWhile isDigitCh
      parseNumTail (sign ++ c :: ds) (r.dropWhile isDigitCh)
    else none
  | [] => none

/-- Insert a key/value pair into an object under construction with Python
dict semantics: a duplicate key keeps its first position and takes the new
value. -/
def objInsert : List (String × Json) → String → Json → List (String × Json)
  | [], k, v => [(k, v)]
  | (k0, v0) :: rest, k, v =>
    if k0 = k then (k, v) :: rest else (k0, v0) :: objInsert rest k v

mutual

/-- One JSON value (after optional leading whitespace): returns it and the
rest of the input.  Python's decoder also accepts the non-standard
constants `NaN`, `Infinity` and `-Infinity` by default; they are kept as
numeric tokens.  `fuel` bounds the recursion depth; every recursive call
follows the consumption of at least one input character, so
`length + 2` units at top level always suffice. -/
def parseVal (fuel : Nat) (cs : List Char) : Option (Json × List Char) :=
  match fuel with
  | 0 => none
  | fuel + 1 =>
    match skipWs cs with
    | 'n' :: 'u' :: 'l' :: 'l' :: r => some (Json.null, r)
    | 't' :: 'r' :: 'u' :: 'e' :: r => some (Json.bool true, r)
    | 'f' :: 'a' :: 'l' :: 's' :: 'e' :: r => some (Json.bool false, r)
    | '"' :: r =>
      match parseStrBody r [] with
      | some (s, r1) => some (Json.str s, r1)
      | none => none
    | '{' :: r =>
      (match skipWs r with
       | '}' :: r1 => some (Json.obj [], r1)
       | _ => parseFields fuel r [])
    | '[' :: r =>
      (match skipWs r with
       | ']' :: r1 => some (Json.arr [], r1)
       | _ => parseItems fuel r [])
    | 'N' :: 'a' :: 'N' :: r => some (Json.num "NaN", r)
    | 'I' :: 'n' :: 'f' :: 'i' :: 'n' :: 'i' :: 't' :: 'y' :: r =>
      some (Json.num "Infinity", r)
    | '-' :: 'I' :: 'n' :: 'f' :: 'i' :: 'n' :: 'i' :: 't' :: 'y' :: r =>
      some (Json.num "-Infinity", r)
    | other =>
      match parseNum other with
      | some (tok, r) => some (Json.num tok, r)
      | none => none
termination_by structural fuel

/-- The members of a JSON object, after `\x7b` (and not immediately `\x7d`):
`acc` holds the members parsed so far. -/
def parseFields (fuel : Nat) (cs : List Char) (acc : List (String × Json)) :
    Option (Json × List Char) :=
  match fuel with
  | 0 => none
  | fuel + 1 =>
    match skipWs cs with
    | '"' :: r =>
      match parseStrBody r [] with
      | some (k, r1) =>
        (match skipWs r1 with
         | ':' :: r2 =>
           (match parseVal fuel r2 with
            | some (v, r3) =>
              (match skipWs r3 with
               | ',' :: r4 => parseFields fuel r4 (objInsert acc k v)
               | '}' :: r4 => some (Json.obj (objInsert acc k v), r4)
               | _ => none)
            | none => none)
         | _ => none)
      | none => none
    | _ => none
termination_by structural fuel

/-- The elements of a JSON array, after `[` (and not immediately `]`):
`acc` holds the elements parsed so far, in reverse. -/
def parseItems (fuel : Nat) (cs : List Char) (acc : List Json) :
    Option (Json × List Char) :=
  match fuel with
  | 0 => none
  | fuel + 1 =>
    match parseVal fuel cs with
    | some (v, r) =>
      (match skipWs r with
       | ',' :: r1 => parseItems fuel r1 (v :: acc)
       | ']' :: r1 => some (Json.arr (v :: acc).reverse, r1)
       | _ => none)
    | none => none
termination_by structural fuel

end

/-- Python's `json.loads` on a string: the parsed value when the whole
string is one JSON document, `none` when decoding fails (modelling a raised
`json.JSONDecodeError`). -/
def jsonParse (s : String) : Option Json :=
  match parseVal (s.data.length + 2) s.data with
  | some (v, rest) => if skipWs rest = [] then some v else none
  | none => none

/-- Lookup of a key in an object's field list (Python dict lookup; keys are
unique by construction of the parser). -/
def lookupField : List (String × Json) → String → Option Json
  | [], _ => none
  | (k, v) :: rest, key => if k = key then some v else lookupField rest key

/-- The exception a dispatch step can raise: `attrError` models Python's
`AttributeError` from calling `.get` on a value that is not a dict. -/
inductive PyErr where
  | attrError : PyErr

/-- Python's `value.get(key, default)`: the key's value (or the default) when
`value` is a dict, `AttributeError` otherwise. -/
def pyGet (v : Json) (key : String) (dflt : Json) : Except PyErr Json :=
  match v with
  | Json.obj fields => Except.ok ((lookupField fields key).getD dflt)
  | _ => Except.error PyErr.attrError

/-- Line 15 of agent.py: `msg.get("input", \x7b\x7d).get("ticket", "")`. -/
def getTicket (msg : Json) : Except PyErr Json :=
  match pyGet msg "input" (Json.obj []) with
  | Except.error e => Except.error e
  | Except.ok inp => pyGet inp "ticket" (Json.str "")

/-- Line 16 of agent.py: the `tool_call` payload sent for a `task_start`,
with the extracted ticket as `args.q`. -/
def toolCallMsg (ticket : Json) : Json :=
  Json.obj [("type", Json.str "tool_call"), ("name", Json.str "search_docs"),
    ("call_id", Json.str "c1"), ("args", Json.obj [("q", ticket)])]

/-- Line 18 of agent.py: the fixed `final_output` payload sent for a
`tool_result`. -/
def finalOutputMsg : Json :=
  Json.obj [("type", Json.str "final_output"),
    ("output", Json.obj [("category", Json.str "account"),
      ("reply", Json.str "Reset password instructions sent.")])]

/-- Lines 14-19 of agent.py: the dispatch on one decoded message.  Returns
the payloads written for this message and whether the loop `break`s, or the
uncaught exception.  `msg.get("type")` (default `None`) is compared against
the two recognized kinds; a non-string or unrecognized kind falls through
with no output. -/
def step (msg : Json) : Except PyErr (List Json × Bool) :=
  match pyGet msg "type" Json.null with
  | Except.error e => Except.error e
  | Except.ok t =>
    match t with
    | Json.str s =>
      if s = "task_start" then
        match getTicket msg with
        | Except.error e => Except.error e
        | Except.ok ticket => Except.ok ([toolCallMsg ticket], false)
      else if s = "tool_result" then
        Except.ok ([finalOutputMsg], true)
      else
        Except.ok ([], false)
    | _ => Except.ok ([], false)

/-- How a run of `main` ends. -/
inductive Outcome where
  /-- The input stream ended while the loop was still reading. -/
  | exhausted : Outcome
  /-- The loop executed `break` after sending the final output. -/
  | finished : Outcome
  /-- `json.loads` raised on a non-blank line; the exception propagates. -/
  | decodeError : Outcome
  /-- `.get` was called on a non-dict value; the exception propagates. -/
  | attrError : Outcome

/-- Lines 9-19 of agent.py: the whole `main` loop over the list of input
lines.  Returns the list of payloads written to stdout and the outcome. -/
def runLoop : List String → List Json × Outcome
  | [] => ([], Outcome.exhausted)
  | line :: rest =>
    if pyStrip line = "" then runLoop rest
    else
      match jsonParse (pyStrip line) with
      | none => ([], Outcome.decodeError)
      | some msg =>
        match step msg with
        | Except.error _ => ([], Outcome.attrError)
        | Except.ok (outs, true) => (outs, Outcome.finished)
        | Except.ok (outs, false) =>
          (outs ++ (runLoop rest).1, (runLoop rest).2)

/-- Whether a message's `type` field is the string `t` (the kind tag of the
wire protocol). -/
def hasType (t : String) : Json → Bool
  | Json.obj fields =>
    match lookupField fields "type" with
    | some (Json.str s) => s = t
    | _ => false
  | _ => false

/-- How many messages of kind `t` a list of payloads holds. -/
def countType (t : String) : List Json → Nat
  | [] => 0
  | m :: ms => (if hasType t m then 1 else 0) + countType t ms

/-- The last payload of a list, if any. -/
def lastMsg : List Json → Option Json
  | [] => none
  | m :: ms => some ((lastMsg ms).getD m)

/-- Whether a JSON value is an object (a Python dict). -/
def isObjVal : Json → Bool
  | Json.obj _ => true
  | _ => false

/-- The message kind of a decoded payload: its `type` field when that is a
string. -/
def typeOfMsg (msg : Json) : Option String :=
  match pyGet msg "type" Json.null with
  | Except.ok (Json.str s) => some s
  | _ => none

/-- Whether an input line decodes to a message of kind `tool_result`. -/
def isToolResultLine (s : String) : Bool :=
  !(pyStrip s == "") &&
    (match jsonParse (pyStrip s) with
     | some msg => typeOfMsg msg == some "tool_result"
     | none => false)

/-- Two input streams agree except possibly in the payloads of paired
`tool_result` messages: line by line, either the lines are equal or both
decode to messages of kind `tool_result`. -/
def linesEquiv : List String → List String → Bool
  | [], [] => true
  | a :: as, b :: bs =>
    (a == b || (isToolResultLine a && isToolResultLine b)) && linesEquiv as bs
  | _, _ => false

/-! Sanity evaluations of the embedding on concrete inputs. -/

example : jsonParse "5" = some (Json.num "5") := rfl

example : jsonParse "" = none := rfl

example : jsonParse "not json" = none := rfl

example : jsonParse " \"hi\\n\" " = some (Json.str "hi\n") := rfl

example : jsonParse "[1, -2.5e3, []]" =
    some (Json.arr [Json.num "1", Json.num "-2.5e3", Json.arr []]) := rfl

example : jsonParse "\x7b\"a\": null, \"b\": [true, false]\x7d" =
    some (Json.obj [("a", Json.null), ("b", Json.arr [Json.bool true, Json.bool false])]) := rfl

example : jsonParse "\x7b\"type\":\"task_start\",\"input\":\x7b\"ticket\":\"T-42\"\x7d\x7d" =
    some (Json.obj [("type", Json.str "task_start"),
      ("input", Json.obj [("ticket", Json.str "T-42")])]) := rfl

example : jsonParse "\x7b\"a\":1,\"a\":2\x7d" = some (Json.obj [("a", Json.num "2")]) := rfl

example : jsonParse "\x7b" = none := rfl

example : jsonParse "01" = none := rfl

example :
    runLoop ["\x7b\"type\":\"task_start\",\"input\":\x7b\"ticket\":\"T-42\"\x7d\x7d",
      "\x7b\"type\":\"tool_result\",\"call_id\":\"c1\",\"result\":\x7b\x7d\x7d"] =
    ([toolCallMsg (Json.str "T-42"), finalOutputMsg], Outcome.finished) := rfl

example :
    runLoop ["\x7b\"type\":\"task_start\",\"input\":\x7b\x7d\x7d"] =
    ([toolCallMsg (Json.str "")], Outcome.exhausted) := rfl

example : runLoop ["", "   ", "nonsense"] = ([], Outcome.decodeError) := rfl

example : runLoop ["5"] = ([], Outcome.attrError) := rfl
/-! Helper lemmas about `step` and `runLoop`. -/

/-- `step` on a message whose kind is `tool_result`: the fixed final output
is sent and the loop breaks, whatever else the message holds. -/
theorem step_toolResult (msg : Json)
    (h : pyGet msg "type" Json.null = Except.ok (Json.str "tool_result")) :
    step msg = Except.ok ([finalOutputMsg], true) := by
  simp [step, h]

/-- `step` on a message whose kind is `task_start`: one `tool_call` with the
extracted ticket is sent and the loop goes on. -/
theorem step_taskStart (msg ticket : Json)
    (h : pyGet msg "type" Json.null = Except.ok (Json.str "task_start"))
    (hk : getTicket msg = Except.ok ticket) :
    step msg = Except.ok ([toolCallMsg ticket], false) := by
  simp [step, h, hk]

/-- `step` on a message whose kind is a string that is neither recognized
kind: nothing is sent and the loop goes on. -/
theorem step_otherKind (msg : Json) (t : Json)
    (h : pyGet msg "type" Json.null = Except.ok t)
    (hne : ∀ u : String, t = Json.str u → u ≠ "task_start" ∧ u ≠ "tool_result") :
    step msg = Except.ok ([], false) := by
  cases t with
  | str u =>
    obtain ⟨h1, h2⟩ := hne u rfl
    simp [step, h, h1, h2]
  | null => simp [step, h]
  | bool b => simp [step, h]
  | num r => simp [step, h]
  | arr l => simp [step, h]
  | obj f => simp [step, h]

/-- `runLoop` skips a whitespace-only line. -/
theorem runLoop_cons_blank (x : String) (rest : List String)
    (hx : pyStrip x = "") : runLoop (x :: rest) = runLoop rest := by
  simp [runLoop, hx]

/-- `runLoop` stops with a decode error on a non-blank unparseable line. -/
theorem runLoop_cons_decode (x : String) (rest : List String)
    (hx : pyStrip x ≠ "") (hp : jsonParse (pyStrip x) = none) :
    runLoop (x :: rest) = ([], Outcome.decodeError) := by
  simp [runLoop, hx, hp]

/-- `runLoop` stops with the uncaught attribute error when `step` raises. -/
theorem runLoop_cons_err (x : String) (rest : List String) (msg : Json) (e : PyErr)
    (hx : pyStrip x ≠ "") (hp : jsonParse (pyStrip x) = some msg)
    (hstep : step msg = Except.error e) :
    runLoop (x :: rest) = ([], Outcome.attrError) := by
  simp [runLoop, hx, hp, hstep]

/-- `runLoop` stops right after a message on which `step` breaks. -/
theorem runLoop_cons_ok_true (x : String) (rest : List String) (msg : Json) (outs : List Json)
    (hx : pyStrip x ≠ "") (hp : jsonParse (pyStrip x) = some msg)
    (hstep : step msg = Except.ok (outs, true)) :
    runLoop (x :: rest) = (outs, Outcome.finished) := by
  simp [runLoop, hx, hp, hstep]

/-- `runLoop` emits a non-breaking message's output and goes on. -/
theorem runLoop_cons_ok_false (x : String) (rest : List String) (msg : Json) (outs : List Json)
    (hx : pyStrip x ≠ "") (hp : jsonParse (pyStrip x) = some msg)
    (hstep : step msg = Except.ok (outs, false)) :
    runLoop (x :: rest) = (outs ++ (runLoop rest).1, (runLoop rest).2) := by
  simp [runLoop, hx, hp, hstep]

/-- The four possible results of one dispatch step: an exception, one tool
call without breaking, the final output with a break, or nothing. -/
theorem step_cases (msg : Json) :
    (∃ e, step msg = Except.error e) ∨
    (∃ tk, step msg = Except.ok ([toolCallMsg tk], false)) ∨
    step msg = Except.ok ([finalOutputMsg], true) ∨
    step msg = Except.ok ([], false) := by
  cases msg with
  | obj fields =>
    cases hl : lookupField fields "type" with
    | none => exact Or.inr (Or.inr (Or.inr (by simp [step, pyGet, hl])))
    | some t =>
      cases t with
      | str s =>
        by_cases h1 : s = "task_start"
        · subst h1
          cases hk : getTicket (Json.obj fields) with
          | error e => exact Or.inl ⟨e, by simp [step, pyGet, hl, hk]⟩
          | ok tk => exact Or.inr (Or.inl ⟨tk, by simp [step, pyGet, hl, hk]⟩)
        · by_cases h2 : s = "tool_result"
          · subst h2
            exact Or.inr (Or.inr (Or.inl (by simp [step, pyGet, hl])))
          · exact Or.inr (Or.inr (Or.inr (by simp [step, pyGet, hl, h1, h2])))
      | null => exact Or.inr (Or.inr (Or.inr (by simp [step, pyGet, hl])))
      | bool b => exact Or.inr (Or.inr (Or.inr (by simp [step, pyGet, hl])))
      | num r => exact Or.inr (Or.inr (Or.inr (by simp [step, pyGet, hl])))
      | arr l => exact Or.inr (Or.inr (Or.inr (by simp [step, pyGet, hl])))
      | obj g => exact Or.inr (Or.inr (Or.inr (by simp [step, pyGet, hl])))
  | null => exact Or.inl ⟨PyErr.attrError, by simp [step, pyGet]⟩
  | bool b => exact Or.inl ⟨PyErr.attrError, by simp [step, pyGet]⟩
  | num r => exact Or.inl ⟨PyErr.attrError, by simp [step, pyGet]⟩
  | str s => exact Or.inl ⟨PyErr.attrError, by simp [step, pyGet]⟩
  | arr l => exact Or.inl ⟨PyErr.attrError, by simp [step, pyGet]⟩

/-- A `tool_call` payload is not of kind `final_output`, whatever its
ticket. -/
theorem hasType_final_toolCall (v : Json) :
    hasType "final_output" (toolCallMsg v) = false := by
  simp [hasType, toolCallMsg, lookupField]

/-- The final payload is of kind `final_output`. -/
theorem hasType_final_finalOutput : hasType "final_output" finalOutputMsg = true := by
  simp [hasType, finalOutputMsg, lookupField]

/-- `countType` is additive over append. -/
theorem countType_append (t : String) (a b : List Json) :
    countType t (a ++ b) = countType t a + countType t b := by
  induction a with
  | nil => simp [countType]
  | cons x xs ih => simp [countType, ih]; omega

/-- A list holds no message of kind `t` exactly when its count is zero. -/
theorem countType_eq_zero (t : String) (l : List Json) :
    countType t l = 0 ↔ ∀ m ∈ l, hasType t m = false := by
  induction l with
  | nil => simp [countType]
  | cons x xs ih =>
    by_cases hx : hasType t x = true
    · simp [countType, hx]
    · have hx' : hasType t x = false := by simpa using hx
      simp [countType, hx', ih]

/-- The last element of a list ending in `m` is `m`. -/
theorem lastMsg_concat (l : List Json) (m : Json) :
    lastMsg (l ++ [m]) = some m := by
  induction l with
  | nil => simp [lastMsg]
  | cons x xs ih => simp [lastMsg, ih]

/-- While a run has not stopped (its input was exhausted), appending more
input lines extends the run: the outputs of the first part persist and the
rest is processed from the same (stateless) loop. -/
theorem runLoop_append (pre rest : List String) :
    (runLoop pre).2 = Outcome.exhausted →
    runLoop (pre ++ rest) = ((runLoop pre).1 ++ (runLoop rest).1, (runLoop rest).2) := by
  induction pre with
  | nil => intro _; simp [runLoop]
  | cons x xs ih =>
    intro h
    by_cases hx : pyStrip x = ""
    · rw [runLoop_cons_blank x xs hx] at h
      rw [List.cons_append, runLoop_cons_blank x (xs ++ rest) hx,
        runLoop_cons_blank x xs hx]
      exact ih h
    · cases hp : jsonParse (pyStrip x) with
      | none =>
        rw [runLoop_cons_decode x xs hx hp] at h
        simp at h
      | some msg =>
        cases hstep : step msg with
        | error e =>
          rw [runLoop_cons_err x xs msg e hx hp hstep] at h
          simp at h
        | ok res =>
          obtain ⟨outs, stop⟩ := res
          cases stop with
          | true =>
            rw [runLoop_cons_ok_true x xs msg outs hx hp hstep] at h
            simp at h
          | false =>
            rw [runLoop_cons_ok_false x xs msg outs hx hp hstep] at h
            rw [List.cons_append, runLoop_cons_ok_false x (xs ++ rest) msg outs hx hp hstep,
              runLoop_cons_ok_false x xs msg outs hx hp hstep]
            simp [ih h, List.append_assoc]

/-- Structure of a whole run's output: either it holds no `final_output` at
all, or it is some `final_output`-free list followed by the one final
payload, on which the loop broke. -/
theorem runLoop_final_structure (lines : List String) :
    countType "final_output" (runLoop lines).1 = 0 ∨
    ∃ pre, (runLoop lines).1 = pre ++ [finalOutputMsg] ∧
      countType "final_output" pre = 0 ∧ (runLoop lines).2 = Outcome.finished := by
  induction lines with
  | nil => left; simp [runLoop, countType]
  | cons x xs ih =>
    by_cases hx : pyStrip x = ""
    · rw [runLoop_cons_blank x xs hx]; exact ih
    · cases hp : jsonParse (pyStrip x) with
      | none => left; rw [runLoop_cons_decode x xs hx hp]; simp [countType]
      | some msg =>
        rcases step_cases msg with ⟨e, hstep⟩ | ⟨tk, hstep⟩ | hstep | hstep
        · left; rw [runLoop_cons_err x xs msg e hx hp hstep]; simp [countType]
        · rw [runLoop_cons_ok_false x xs msg [toolCallMsg tk] hx hp hstep]
          rcases ih with h0 | ⟨pre, hpre, hcount, hfin⟩
          · left
            simp [countType_append, h0, countType, hasType_final_toolCall]
          · right
            refine ⟨toolCallMsg tk :: pre, ?_, ?_, hfin⟩
            · simp [hpre]
            · simp [countType, hasType_final_toolCall, hcount]
        · right
          rw [runLoop_cons_ok_true x xs msg [finalOutputMsg] hx hp hstep]
          exact ⟨[], by simp, by simp [countType], rfl⟩
        · rw [runLoop_cons_ok_false x xs msg [] hx hp hstep]
          rcases ih with h0 | ⟨pre, hpre, hcount, hfin⟩
          · left; simpa [countType_append, countType] using h0
          · right; exact ⟨pre, by simp [hpre], hcount, hfin⟩

/-- `runLoop` on streams with equal heads agrees when it agrees on the
tails (the loop keeps no state besides its position in the stream). -/
theorem runLoop_cons_congr (x : String) (as bs : List String)
    (h : runLoop as = runLoop bs) : runLoop (x :: as) = runLoop (x :: bs) := by
  simp only [runLoop]
  rw [h]

/-- A line decoding to a `tool_result` message makes the loop send the
final output and break, whatever follows. -/
theorem isToolResultLine_run (a : String) (as : List String)
    (h : isToolResultLine a = true) :
    runLoop (a :: as) = ([finalOutputMsg], Outcome.finished) := by
  unfold isToolResultLine at h
  rw [Bool.and_eq_true] at h
  obtain ⟨h1, h2⟩ := h
  have hs : pyStrip a ≠ "" := by simpa using h1
  cases hp : jsonParse (pyStrip a) with
  | none => rw [hp] at h2; simp at h2
  | some msg =>
    rw [hp] at h2
    have h3 : typeOfMsg msg = some "tool_result" := by simpa using h2
    unfold typeOfMsg at h3
    cases hg : pyGet msg "type" Json.null with
    | error e => rw [hg] at h3; simp at h3
    | ok t =>
      rw [hg] at h3
      cases t with
      | str u =>
        simp only [Option.some.injEq] at h3
        subst h3
        exact runLoop_cons_ok_true a as msg [finalOutputMsg] hs hp (step_toolResult msg hg)
      | null => simp at h3
      | bool b => simp at h3
      | num r => simp at h3
      | arr l => simp at h3
      | obj f => simp at h3

/-! The claims. -/

/-- C1, counterexample: the code keeps no "already called the tool" state,
so a stream with two `task_start` messages makes one run write two
`tool_call` messages, refuting "at most one tool_call message is written in
one run". -/
theorem claim_C1_counterexample :
    ¬ countType "tool_call"
      (runLoop ["\x7b\"type\":\"task_start\"\x7d", "\x7b\"type\":\"task_start\"\x7d"]).1 ≤ 1 := by
  have h : countType "tool_call"
      (runLoop ["\x7b\"type\":\"task_start\"\x7d", "\x7b\"type\":\"task_start\"\x7d"]).1 = 2 := rfl
  omega

/-- C1, amended: across one run of the loop at most one `final_output`
message is written, and when one is written it is the last message written
in that run; the number of `tool_call` messages is however not bounded (the
loop writes one per `task_start` it reads before the first `tool_result`). -/
theorem claim_C1_theorem (lines : List String) :
    countType "final_output" (runLoop lines).1 ≤ 1 ∧
    ∀ m ∈ (runLoop lines).1, hasType "final_output" m = true →
      lastMsg (runLoop lines).1 = some m := by
  rcases runLoop_final_structure lines with h0 | ⟨pre, hpre, hc, _⟩
  · constructor
    · omega
    · intro m hm hty
      have := (countType_eq_zero "final_output" (runLoop lines).1).1 h0 m hm
      rw [this] at hty
      cases hty
  · constructor
    · rw [hpre]
      simp [countType_append, hc, countType, hasType_final_finalOutput]
    · intro m hm hty
      rw [hpre] at hm
      rcases List.mem_append.1 hm with hmem | hmem
      · have := (countType_eq_zero "final_output" pre).1 hc m hmem
        rw [this] at hty
        cases hty
      · have hm' : m = finalOutputMsg := by simpa using hmem
        subst hm'
        rw [hpre]
        exact lastMsg_concat pre finalOutputMsg

/-- C2, counterexample: a `tool_result` received in the initial state (no
`task_start` was ever sent) is not ignored — the loop answers it with the
final output and terminates, refuting "no output and no state change". -/
theorem claim_C2_counterexample :
    (runLoop ["\x7b\"type\":\"tool_result\"\x7d"]).1 ≠ [] ∧
    (runLoop ["\x7b\"type\":\"tool_result\"\x7d"]).2 = Outcome.finished := by
  have heval : runLoop ["\x7b\"type\":\"tool_result\"\x7d"] =
      ([finalOutputMsg], Outcome.finished) := rfl
  rw [heval]
  exact ⟨by simp, rfl⟩

/-- C2, amended: a message whose kind is neither `task_start` nor
`tool_result` (an unrecognized `type`, or a non-string one) produces no
output and no state change — the loop just reads on.  The original claim's
other case fails: the loop keeps no state, so a `tool_result` is answered
the same way in every state, including before any `task_start`. -/
theorem claim_C2_theorem (pre : List String) (s : String) (rest : List String) (msg t : Json)
    (hpre : (runLoop pre).2 = Outcome.exhausted)
    (hs : pyStrip s ≠ "")
    (hp : jsonParse (pyStrip s) = some msg)
    (ht : pyGet msg "type" Json.null = Except.ok t)
    (hne : ∀ u : String, t = Json.str u → u ≠ "task_start" ∧ u ≠ "tool_result") :
    runLoop (pre ++ s :: rest) = runLoop (pre ++ rest) := by
  rw [runLoop_append pre (s :: rest) hpre, runLoop_append pre rest hpre,
    runLoop_cons_ok_false s rest msg [] hs hp (step_otherKind msg t ht hne)]
  simp

/-- C2, witness: a `ping` message between a `task_start` and a
`tool_result` is ignored. -/
theorem claim_C2_witness :
    runLoop (["\x7b\"type\":\"task_start\"\x7d"] ++ "\x7b\"type\":\"ping\"\x7d" ::
      ["\x7b\"type\":\"tool_result\"\x7d"]) =
    runLoop (["\x7b\"type\":\"task_start\"\x7d"] ++ ["\x7b\"type\":\"tool_result\"\x7d"]) :=
  claim_C2_theorem ["\x7b\"type\":\"task_start\"\x7d"] "\x7b\"type\":\"ping\"\x7d"
    ["\x7b\"type\":\"tool_result\"\x7d"] (Json.obj [("type", Json.str "ping")])
    (Json.str "ping") rfl (by decide) rfl rfl
    (by intro u hu; injection hu with h1; subst h1; exact ⟨by decide, by decide⟩)

/-- C3: a `task_start` message whose `input.ticket` is the string `T` makes
the step write exactly one message: a `tool_call` named `search_docs` with
`call_id` `c1` and `args.q = T`, and the loop goes on. -/
theorem claim_C3_theorem (fields g : List (String × Json)) (T : String)
    (htype : lookupField fields "type" = some (Json.str "task_start"))
    (hin : lookupField fields "input" = some (Json.obj g))
    (htk : lookupField g "ticket" = some (Json.str T)) :
    step (Json.obj fields) =
      Except.ok ([Json.obj [("type", Json.str "tool_call"),
        ("name", Json.str "search_docs"), ("call_id", Json.str "c1"),
        ("args", Json.obj [("q", Json.str T)])]], false) := by
  have hk : getTicket (Json.obj fields) = Except.ok (Json.str T) := by
    simp [getTicket, pyGet, hin, htk]
  have := step_taskStart (Json.obj fields) (Json.str T) (by simp [pyGet, htype]) hk
  simpa [toolCallMsg] using this

/-- C3, witness: ticket `T-42`. -/
theorem claim_C3_witness :
    step (Json.obj [("type", Json.str "task_start"),
      ("input", Json.obj [("ticket", Json.str "T-42")])]) =
      Except.ok ([Json.obj [("type", Json.str "tool_call"),
        ("name", Json.str "search_docs"), ("call_id", Json.str "c1"),
        ("args", Json.obj [("q", Json.str "T-42")])]], false) :=
  claim_C3_theorem [("type", Json.str "task_start"),
    ("input", Json.obj [("ticket", Json.str "T-42")])]
    [("ticket", Json.str "T-42")] "T-42" rfl rfl rfl

/-- C4: whenever a `tool_result` message is read at a point the loop is
still running — in particular in the awaiting-tool-result situation, after
a `task_start` — the loop writes exactly the fixed `final_output` payload
and breaks: the lines after it are never read (the conclusion does not
depend on `rest`). -/
theorem claim_C4_theorem (pre : List String) (s : String) (rest : List String) (msg : Json)
    (hpre : (runLoop pre).2 = Outcome.exhausted)
    (hs : pyStrip s ≠ "")
    (hp : jsonParse (pyStrip s) = some msg)
    (ht : pyGet msg "type" Json.null = Except.ok (Json.str "tool_result")) :
    runLoop (pre ++ s :: rest) = ((runLoop pre).1 ++ [finalOutputMsg], Outcome.finished) := by
  rw [runLoop_append pre (s :: rest) hpre,
    runLoop_cons_ok_true s rest msg [finalOutputMsg] hs hp (step_toolResult msg ht)]

/-- C4, witness: a `tool_result` with an arbitrary payload after a
`task_start`; a further `task_start` line behind it is never read. -/
theorem claim_C4_witness :
    runLoop (["\x7b\"type\":\"task_start\",\"input\":\x7b\"ticket\":\"T-42\"\x7d\x7d"] ++
      "\x7b\"type\":\"tool_result\",\"call_id\":\"c9\",\"result\":[1,2]\x7d" ::
      ["\x7b\"type\":\"task_start\"\x7d"]) =
    ((runLoop ["\x7b\"type\":\"task_start\",\"input\":\x7b\"ticket\":\"T-42\"\x7d\x7d"]).1 ++
      [finalOutputMsg], Outcome.finished) :=
  claim_C4_theorem ["\x7b\"type\":\"task_start\",\"input\":\x7b\"ticket\":\"T-42\"\x7d\x7d"]
    "\x7b\"type\":\"tool_result\",\"call_id\":\"c9\",\"result\":[1,2]\x7d"
    ["\x7b\"type\":\"task_start\"\x7d"]
    (Json.obj [("type", Json.str "tool_result"), ("call_id", Json.str "c9"),
      ("result", Json.arr [Json.num "1", Json.num "2"])])
    rfl (by decide) rfl rfl

/-- C5: a `task_start` whose `input` object has no `ticket` field, or with
no `input` field at all, yields a `tool_call` whose `args.q` is the empty
string. -/
theorem claim_C5_theorem (fields : List (String × Json))
    (htype : lookupField fields "type" = some (Json.str "task_start"))
    (hin : lookupField fields "input" = none ∨
      ∃ g, lookupField fields "input" = some (Json.obj g) ∧
        lookupField g "ticket" = none) :
    step (Json.obj fields) = Except.ok ([toolCallMsg (Json.str "")], false) := by
  have hk : getTicket (Json.obj fields) = Except.ok (Json.str "") := by
    rcases hin with h | ⟨g, hg, hgt⟩
    · simp [getTicket, pyGet, h, lookupField]
    · simp [getTicket, pyGet, hg, hgt]
  exact step_taskStart (Json.obj fields) (Json.str "") (by simp [pyGet, htype]) hk

/-- C5, witness: a `task_start` with no `input` field. -/
theorem claim_C5_witness :
    step (Json.obj [("type", Json.str "task_start")]) =
      Except.ok ([toolCallMsg (Json.str "")], false) :=
  claim_C5_theorem [("type", Json.str "task_start")] rfl (Or.inl rfl)

/-- C6: a non-blank line that is not well-formed JSON stops the run at once
with the propagated decode error: no output is produced for that line, no
recovery is attempted and the lines after it are never read (the conclusion
does not depend on `rest`). -/
theorem claim_C6_theorem (pre : List String) (s : String) (rest : List String)
    (hpre : (runLoop pre).2 = Outcome.exhausted)
    (hs : pyStrip s ≠ "")
    (hp : jsonParse (pyStrip s) = none) :
    runLoop (pre ++ s :: rest) = ((runLoop pre).1, Outcome.decodeError) := by
  rw [runLoop_append pre (s :: rest) hpre, runLoop_cons_decode s rest hs hp]
  simp

/-- C6, witness: a malformed line after a valid `task_start`; a valid
`tool_result` line behind it is never read and no final output appears. -/
theorem claim_C6_witness :
    runLoop (["\x7b\"type\":\"task_start\"\x7d"] ++ "not json" ::
      ["\x7b\"type\":\"tool_result\"\x7d"]) =
    ((runLoop ["\x7b\"type\":\"task_start\"\x7d"]).1, Outcome.decodeError) :=
  claim_C6_theorem ["\x7b\"type\":\"task_start\"\x7d"] "not json"
    ["\x7b\"type\":\"tool_result\"\x7d"] rfl (by decide) rfl

/-- C7: a well-formed `task_start` line followed by a well-formed
`tool_result` line produces exactly two output payloads — the `tool_call`,
then the `final_output` — and the loop then breaks, reading none of the
lines behind them (the conclusion does not depend on `rest`). -/
theorem claim_C7_theorem (s1 s2 : String) (rest : List String) (m1 m2 t : Json)
    (h1s : pyStrip s1 ≠ "")
    (h1p : jsonParse (pyStrip s1) = some m1)
    (h1t : pyGet m1 "type" Json.null = Except.ok (Json.str "task_start"))
    (h1k : getTicket m1 = Except.ok t)
    (h2s : pyStrip s2 ≠ "")
    (h2p : jsonParse (pyStrip s2) = some m2)
    (h2t : pyGet m2 "type" Json.null = Except.ok (Json.str "tool_result")) :
    runLoop (s1 :: s2 :: rest) = ([toolCallMsg t, finalOutputMsg], Outcome.finished) := by
  rw [runLoop_cons_ok_false s1 (s2 :: rest) m1 [toolCallMsg t] h1s h1p
      (step_taskStart m1 t h1t h1k),
    runLoop_cons_ok_true s2 rest m2 [finalOutputMsg] h2s h2p (step_toolResult m2 h2t)]
  rfl

/-- C7, witness: the spec's scenario 1, with an extra line behind the two
messages that is never read. -/
theorem claim_C7_witness :
    runLoop ("\x7b\"type\":\"task_start\",\"input\":\x7b\"ticket\":\"T-42\"\x7d\x7d" ::
      "\x7b\"type\":\"tool_result\",\"call_id\":\"c1\",\"result\":\x7b\x7d\x7d" ::
      ["\x7b\"type\":\"task_start\"\x7d"]) =
    ([toolCallMsg (Json.str "T-42"), finalOutputMsg], Outcome.finished) :=
  claim_C7_theorem "\x7b\"type\":\"task_start\",\"input\":\x7b\"ticket\":\"T-42\"\x7d\x7d"
    "\x7b\"type\":\"tool_result\",\"call_id\":\"c1\",\"result\":\x7b\x7d\x7d"
    ["\x7b\"type\":\"task_start\"\x7d"]
    (Json.obj [("type", Json.str "task_start"),
      ("input", Json.obj [("ticket", Json.str "T-42")])])
    (Json.obj [("type", Json.str "tool_result"), ("call_id", Json.str "c1"),
      ("result", Json.obj [])])
    (Json.str "T-42")
    (by decide) rfl rfl rfl (by decide) rfl rfl

/-- C8: two runs whose input streams differ only in the payloads of their
`tool_result` messages (line by line, each pair of lines is either equal or
both decode to messages of kind `tool_result`) behave identically — same
output payloads in the same order and the same outcome.  The content of a
`tool_result` is never inspected. -/
theorem claim_C8_theorem (l1 l2 : List String) (h : linesEquiv l1 l2 = true) :
    runLoop l1 = runLoop l2 := by
  revert h
  induction l1 generalizing l2 with
  | nil =>
    intro h
    cases l2 with
    | nil => rfl
    | cons b bs => simp [linesEquiv] at h
  | cons a as ih =>
    intro h
    cases l2 with
    | nil => simp [linesEquiv] at h
    | cons b bs =>
      simp only [linesEquiv, Bool.and_eq_true, Bool.or_eq_true] at h
      obtain ⟨hhead, htail⟩ := h
      rcases hhead with hab | ⟨ha, hb⟩
      · have hab' : a = b := by simpa using hab
        subst hab'
        exact runLoop_cons_congr a as bs (ih bs htail)
      · rw [isToolResultLine_run a as ha, isToolResultLine_run b bs hb]

/-- C8, witness: two runs whose `tool_result` lines carry different
`call_id` and `result` payloads produce the same outputs. -/
theorem claim_C8_witness :
    runLoop ["\x7b\"type\":\"task_start\",\"input\":\x7b\"ticket\":\"T-42\"\x7d\x7d",
      "\x7b\"type\":\"tool_result\",\"call_id\":\"c1\",\"result\":\x7b\"a\":1\x7d\x7d"] =
    runLoop ["\x7b\"type\":\"task_start\",\"input\":\x7b\"ticket\":\"T-42\"\x7d\x7d",
      "\x7b\"type\":\"tool_result\",\"call_id\":\"zz\",\"result\":\"other\"\x7d"] :=
  claim_C8_theorem
    ["\x7b\"type\":\"task_start\",\"input\":\x7b\"ticket\":\"T-42\"\x7d\x7d",
      "\x7b\"type\":\"tool_result\",\"call_id\":\"c1\",\"result\":\x7b\"a\":1\x7d\x7d"]
    ["\x7b\"type\":\"task_start\",\"input\":\x7b\"ticket\":\"T-42\"\x7d\x7d",
      "\x7b\"type\":\"tool_result\",\"call_id\":\"zz\",\"result\":\"other\"\x7d"]
    rfl

/-- C9: a whitespace-only line is skipped in every reachable situation: the
run is the same as without that line, no output is produced and no state
changes; the line is never parsed — indeed it could not be
(`jsonParse` fails on the empty stripped line), yet no decode error is
raised. -/
theorem claim_C9_theorem (pre : List String) (s : String) (rest : List String)
    (hpre : (runLoop pre).2 = Outcome.exhausted)
    (hs : pyStrip s = "") :
    runLoop (pre ++ s :: rest) = runLoop (pre ++ rest) ∧
      jsonParse (pyStrip s) = none := by
  constructor
  · rw [runLoop_append pre (s :: rest) hpre, runLoop_append pre rest hpre,
      runLoop_cons_blank s rest hs]
  · rw [hs]
    rfl

/-- C9, witness: a blank line between the spec's two scenario messages. -/
theorem claim_C9_witness :
    (runLoop (["\x7b\"type\":\"task_start\",\"input\":\x7b\"ticket\":\"T-42\"\x7d\x7d"] ++
      "  \t " :: ["\x7b\"type\":\"tool_result\"\x7d"]) =
    runLoop (["\x7b\"type\":\"task_start\",\"input\":\x7b\"ticket\":\"T-42\"\x7d\x7d"] ++
      ["\x7b\"type\":\"tool_result\"\x7d"])) ∧
      jsonParse (pyStrip "  \t ") = none :=
  claim_C9_theorem ["\x7b\"type\":\"task_start\",\"input\":\x7b\"ticket\":\"T-42\"\x7d\x7d"]
    "  \t " ["\x7b\"type\":\"tool_result\"\x7d"] rfl rfl

/-- C10: a line that is well-formed JSON but not an object, or a
`task_start` whose `input` field holds a non-object, makes the loop raise
the uncaught attribute error — an outcome distinct from the decode error —
instead of ignoring the message or applying the empty-ticket default; no
output is produced and nothing further is read. -/
theorem claim_C10_theorem (s : String) (rest : List String) (msg : Json)
    (hs : pyStrip s ≠ "")
    (hp : jsonParse (pyStrip s) = some msg)
    (hbad : isObjVal msg = false ∨
      ∃ fields v, msg = Json.obj fields ∧
        lookupField fields "type" = some (Json.str "task_start") ∧
        lookupField fields "input" = some v ∧ isObjVal v = false) :
    runLoop (s :: rest) = ([], Outcome.attrError) ∧
      Outcome.attrError ≠ Outcome.decodeError := by
  refine ⟨?_, fun h => Outcome.noConfusion h⟩
  rcases hbad with hno | ⟨fields, v, hmsg, htype, hin, hv⟩
  · have hg : pyGet msg "type" Json.null = Except.error PyErr.attrError := by
      cases msg with
      | obj f => simp [isObjVal] at hno
      | null => rfl
      | bool b => rfl
      | num r => rfl
      | str u => rfl
      | arr l => rfl
    have hstep : step msg = Except.error PyErr.attrError := by
      simp [step, hg]
    exact runLoop_cons_err s rest msg PyErr.attrError hs hp hstep
  · subst hmsg
    have hk : getTicket (Json.obj fields) = Except.error PyErr.attrError := by
      cases v with
      | obj f => simp [isObjVal] at hv
      | null => simp [getTicket, pyGet, hin]
      | bool b => simp [getTicket, pyGet, hin]
      | num r => simp [getTicket, pyGet, hin]
      | str u => simp [getTicket, pyGet, hin]
      | arr l => simp [getTicket, pyGet, hin]
    have hstep : step (Json.obj fields) = Except.error PyErr.attrError := by
      simp [step, pyGet, htype, hk]
    exact runLoop_cons_err s rest (Json.obj fields) PyErr.attrError hs hp hstep

/-- C10, witness: the line `5` parses to a JSON number; `msg.get` then
raises, with no output and no decode error. -/
theorem claim_C10_witness :
    runLoop ["5", "\x7b\"type\":\"tool_result\"\x7d"] = ([], Outcome.attrError) ∧
      Outcome.attrError ≠ Outcome.decodeError :=
  claim_C10_theorem "5" ["\x7b\"type\":\"tool_result\"\x7d"] (Json.num "5")
    (by decide) rfl (Or.inl rfl)
